import Mathlib

/-!
Verification of `code/core/retrieval/search_engine.py` (macaw repository).

The module defines an abstract `Retrieval` class with a template method
`get_results`, and two concrete back ends: `Indri` (local index, external
`dumpindex` process per document) and `BingWebSearch` (remote search API
plus one page fetch per hit).

External collaborators (the pyndri engine, the `requests` HTTP client,
`BeautifulSoup`, and repository modules not in scope such as
`code.core.retrieval.doc` and `code.util.text_parser`) are modelled as
abstract functions carried in a "world" record; the side effects of the
code under verification (HTTP requests, process invocations, log calls)
are made observable as explicit event traces returned alongside the
result.
-/

namespace Macaw

/-- Modelled from the spec: the `Document` value type of
`code.core.retrieval.doc` (not part of the analysed sources):
`{id: string, title: string, text: string, score: number}`.
Scores are engine-specific numbers; integers suffice for the scores this
module itself constructs (`10 - i` and `-1`) and engine scores are kept
abstract as integers. -/
structure Document where
  id : String
  title : String
  text : String
  score : Int
  deriving Repr, DecidableEq

/-- `self.results_requested = self.params['results_requested'] if
'results_requested' in self.params else 1` — the identical line in
`Indri.__init__` (line 70) and `BingWebSearch.__init__` (line 131).
The optional dict entry is modelled as an `Option Nat`. -/
def initResultsRequested (results_requested_param : Option Nat) : Nat :=
  match results_requested_param with
  | some n => n
  | none => 1

/-! ## The `BingWebSearch` back end -/

/-- One entry of `search_results['webPages']['value']`. -/
structure BingHit where
  url : String
  name : String
  snippet : String
  deriving Repr, DecidableEq

/-- An outbound HTTP request made by `BingWebSearch.retrieve`:
either the search-API GET or the per-hit page-fetch GET. -/
inductive HttpRequest where
  | searchApi (query : String)
  | pageFetch (url : String)
  deriving Repr, DecidableEq

/-- The environment `BingWebSearch.retrieve` runs in: the HTTP status
and parsed JSON hits of the search-API response, the body returned by a
page-fetch GET for each URL, and the two external text-processing
functions used by the code (`html_to_clean_text` from
`code.util.text_parser`, and the BeautifulSoup
`' '.join(...stripped_strings)` HTML stripper). -/
structure BingWorld where
  searchStatus : Nat
  hits : List BingHit
  fetchPage : String → String
  cleanText : String → String
  stripTags : String → String

set_option linter.unusedVariables false in
/-- The body of one iteration of the loop in `BingWebSearch.retrieve`
(lines 152-161) at zero-based index `i`, for hit
`search_results['webPages']['value'][i]`:

    id = ...['url']; title = ...['name']; text = ...['snippet']
    text = ' '.join(BeautifulSoup(text, "html.parser").stripped_strings)
    text = html_to_clean_text(requests.get(id, headers=headers).content)
    score = 10 - i  # this is not a score returned by Bing

The stripped snippet is computed and then overwritten, exactly as in the
source (hence the linter exception for the shadowed binding). -/
def bingDocAt (w : BingWorld) (i : Nat) (h : BingHit) : Document :=
  let id := h.url
  let title := h.name
  let text := h.snippet
  let text := w.stripTags text
  let text := w.cleanText (w.fetchPage id)
  let score : Int := 10 - (i : Int)
  { id := id, title := title, text := text, score := score }

/-- `BingWebSearch.retrieve(query)` (lines 139-161), with
`results_requested = N`.  `response.raise_for_status()` raises exactly
for status codes `≥ 400`; in that case the `requests.HTTPError`
propagates and the loop is never entered.  Otherwise the loop
`for i in range(min(len(search_results['webPages']['value']),
self.results_requested))` builds one `Document` and performs one
page-fetch GET per iteration.  The result is the outcome together with
the ordered trace of outbound HTTP requests. -/
def bingRetrieve (N : Nat) (w : BingWorld) (query : String) :
    Except Unit (List Document) × List HttpRequest :=
  if 400 ≤ w.searchStatus then
    (Except.error (), [HttpRequest.searchApi query])
  else
    let taken := w.hits.take (min w.hits.length N)
    (Except.ok (taken.enum.map (fun p => bingDocAt w p.1 p.2)),
     HttpRequest.searchApi query :: taken.map (fun h => HttpRequest.pageFetch h.url))

/-- `BingWebSearch.get_doc_from_index(doc_id)` (lines 163-175):
`doc = Document(doc_id, doc_id, doc_id, -1); return [doc]`, with the
(empty) trace of outbound HTTP requests it performs. -/
def bingGetDocFromIndex (doc_id : String) : List Document × List HttpRequest :=
  ([{ id := doc_id, title := doc_id, text := doc_id, score := -1 }], [])

/-! ## The `Indri` back end -/

/-- An external process invocation performed by `Indri`: the
`<indri_path>/dumpindex/dumpindex <index> dt <doc_id>` call of
`Indri.get_doc_from_index`. -/
inductive ProcCall where
  | dumpindex (doc_id : String)
  deriving Repr, DecidableEq

/-- The environment `Indri` runs in: the pyndri engine's
`index.query(query, results_requested=N)` answer (ordered
`(internal_id, score)` pairs), the text that the `dumpindex` process
prints for a given internal id, and `get_trec_doc` from
`code.core.retrieval.doc` (a repository module outside the analysed
sources; modelled from the spec as an abstract parser from dumped
content to a `Document`). -/
structure IndriWorld where
  engineQuery : String → Nat → List (Nat × Int)
  dumpOutput : String → String
  parseTrec : String → Document

/-- `Indri.get_doc_from_index(doc_id)` (lines 97-114):

    content = subprocess.run([... 'dumpindex/dumpindex', index, 'dt',
                              str(doc_id)], ...).stdout.decode('UTF-8')
    if self.params['text_format'] == 'trectext':
        doc = get_trec_doc(content)
    else:
        raise Exception('The requested text format is not supported!')
    return [doc]

The external process runs first; the `text_format` check happens on its
output.  The result carries the ordered trace of process invocations. -/
def indriGetDocFromIndex (text_format : String) (w : IndriWorld) (doc_id : String) :
    Except Unit (List Document) × List ProcCall :=
  let content := w.dumpOutput doc_id
  let calls := [ProcCall.dumpindex doc_id]
  if text_format = "trectext" then
    (Except.ok [w.parseTrec content], calls)
  else
    (Except.error (), calls)

/-- The loop of `Indri.retrieve` (lines 88-94) over the engine's ranked
`(int_doc_id, score)` pairs:

    doc = self.get_doc_from_index(int_doc_id)[0]
    doc.score = score
    doc.id = str(int_doc_id)
    results.append(doc)

An exception raised by `get_doc_from_index` (or by indexing `[0]` into
an empty list, which cannot happen) propagates and aborts the loop. -/
def indriLoop (text_format : String) (w : IndriWorld) :
    List (Nat × Int) → Except Unit (List Document) × List ProcCall
  | [] => (Except.ok [], [])
  | (int_doc_id, score) :: rest =>
    match indriGetDocFromIndex text_format w (toString int_doc_id) with
    | (Except.error e, calls) => (Except.error e, calls)
    | (Except.ok docs, calls) =>
      match docs with
      | [] => (Except.error (), calls)
      | doc :: _ =>
        let doc := { doc with score := score, id := toString int_doc_id }
        match indriLoop text_format w rest with
        | (Except.error e, calls2) => (Except.error e, calls ++ calls2)
        | (Except.ok ds, calls2) => (Except.ok (doc :: ds), calls ++ calls2)

/-- `Indri.retrieve(query)` (lines 77-95), with
`results_requested = N`:
`int_results = self.index.query(query, results_requested=N)` followed by
the per-result loop.  The result is the outcome together with the
ordered trace of external process invocations. -/
def indriRetrieve (text_format : String) (N : Nat) (w : IndriWorld) (query : String) :
    Except Unit (List Document) × List ProcCall :=
  indriLoop text_format w (w.engineQuery query N)

/-! ## The `Retrieval` template method `get_results` -/

/-- An observable step of `Retrieval.get_results`: a call to the
injected query-generation capability, a logger call at `info` level, or
the delegation to `retrieve`. -/
inductive Event where
  | genQuery (conv_list : List String) (result : String)
  | logInfo (message : String)
  | retrieveCall (query : String)
  deriving Repr, DecidableEq

/-- `Retrieval.get_results(conv_list)` (lines 35-48):

    query = self.query_generation.get_query(conv_list)
    self.params['logger'].info('New query: ' + query)
    return self.retrieve(query)

parameterised by the injected `query_generation.get_query` and the
concrete back end's `retrieve`, with conversation messages kept abstract
as strings.  The result is paired with the ordered trace of observable
steps. -/
def get_results (getQuery : List String → String)
    (retrieveFn : String → List Document) (conv_list : List String) :
    List Document × List Event :=
  let query := getQuery conv_list
  let docs := retrieveFn query
  (docs,
   [Event.genQuery conv_list query,
    Event.logInfo ("New query: " ++ query),
    Event.retrieveCall query])

/-! ## Helper lemmas -/

/-- `take (min l.length n)` truncates exactly like `take n`. -/
lemma take_min_length_eq {α : Type} (l : List α) (n : Nat) :
    l.take (min l.length n) = l.take n := by
  rcases Nat.le_total l.length n with h | h
  · rw [Nat.min_eq_left h, List.take_length, List.take_of_length_le h]
  · rw [Nat.min_eq_right h]

/-- On a successful search-API response, `bingRetrieve` returns the
documents built from the first `N` hits and a trace of the search call
followed by one page fetch per taken hit. -/
lemma bingRetrieve_ok (N : Nat) (w : BingWorld) (q : String)
    (h : w.searchStatus < 400) :
    bingRetrieve N w q =
      (Except.ok ((w.hits.take N).enum.map (fun p => bingDocAt w p.1 p.2)),
       HttpRequest.searchApi q ::
         (w.hits.take N).map (fun h => HttpRequest.pageFetch h.url)) := by
  have h' : ¬ 400 ≤ w.searchStatus := by omega
  simp only [bingRetrieve, h', if_false, take_min_length_eq]

/-- With the supported `text_format`, the `Indri.retrieve` loop parses
and relabels one document per engine pair, invoking `dumpindex` once per
pair, in order. -/
lemma indriLoop_trectext (w : IndriWorld) (pairs : List (Nat × Int)) :
    indriLoop "trectext" w pairs =
      (Except.ok (pairs.map (fun p =>
         { w.parseTrec (w.dumpOutput (toString p.1)) with
             score := p.2, id := toString p.1 })),
       pairs.map (fun p => ProcCall.dumpindex (toString p.1))) := by
  induction pairs with
  | nil => rfl
  | cons p rest ih =>
    obtain ⟨d, s⟩ := p
    simp [indriLoop, indriGetDocFromIndex, ih]

/-- A concrete world for witnesses: the search API answers with an
HTTP 404 error. -/
def w404 : BingWorld :=
  { searchStatus := 404
    hits := [{ url := "http://a.example", name := "A", snippet := "<b>a</b>" }]
    fetchPage := fun _ => "<html>page</html>"
    cleanText := fun _ => "page"
    stripTags := fun _ => "a" }

/-- A concrete Indri world for witnesses and counterexamples: the engine
ranks one document (internal id 7, score 3). -/
def sampleIndriWorld : IndriWorld :=
  { engineQuery := fun _ _ => [(7, 3)]
    dumpOutput := fun d => "<DOC>" ++ d ++ "</DOC>"
    parseTrec := fun c => { id := "", title := "t", text := c, score := 0 } }

/-! ## Claims -/

/-- C3: for every conversation list, `get_results` invokes the injected
query-generation capability exactly once, logs the produced query at
info level before `retrieve` is called, and returns exactly the list
that `retrieve(query)` returns for the generated query. -/
theorem get_results_once_log_then_retrieve
    (getQuery : List String → String) (retrieveFn : String → List Document)
    (conv_list : List String) :
    (get_results getQuery retrieveFn conv_list).1
      = retrieveFn (getQuery conv_list) ∧
    ((get_results getQuery retrieveFn conv_list).2.countP
        (fun e => match e with | Event.genQuery _ _ => true | _ => false)) = 1 ∧
    (get_results getQuery retrieveFn conv_list).2 =
      [Event.genQuery conv_list (getQuery conv_list),
       Event.logInfo ("New query: " ++ getQuery conv_list),
       Event.retrieveCall (getQuery conv_list)] := by
  refine ⟨rfl, ?_, rfl⟩
  simp [get_results, List.countP, List.countP.go]

/-- C9: if the configuration mapping has no `results_requested` key the
effective maximum result count is 1; if the key is present its value is
used (both back ends run the identical initialisation line). -/
theorem results_requested_default :
    initResultsRequested none = 1 ∧
    ∀ n : Nat, initResultsRequested (some n) = n :=
  ⟨rfl, fun _ => rfl⟩

/-- C10: `BingWebSearch.get_doc_from_index` returns one `Document`
whose id, title and text all equal the given doc id and whose score is
`-1`, performing no HTTP request. -/
theorem bing_get_doc_from_index_spec (doc_id : String) :
    (bingGetDocFromIndex doc_id).1.length = 1 ∧
    (∀ d ∈ (bingGetDocFromIndex doc_id).1,
       d.id = doc_id ∧ d.title = doc_id ∧ d.text = doc_id ∧ d.score = -1) ∧
    (bingGetDocFromIndex doc_id).2 = [] := by
  refine ⟨rfl, ?_, rfl⟩
  intro d hd
  simp only [bingGetDocFromIndex, List.mem_singleton] at hd
  subst hd
  exact ⟨rfl, rfl, rfl, rfl⟩

/-- C5: if the search-API call returns an HTTP error status
(`raise_for_status` fires, status `≥ 400`), `retrieve` fails, returns no
documents, and the HTTP trace holds the search call only — no page
fetch. -/
theorem bing_retrieve_http_error (N : Nat) (w : BingWorld) (q : String)
    (h : 400 ≤ w.searchStatus) :
    (bingRetrieve N w q).1 = Except.error () ∧
    (bingRetrieve N w q).2 = [HttpRequest.searchApi q] ∧
    ∀ u : String, HttpRequest.pageFetch u ∉ (bingRetrieve N w q).2 := by
  refine ⟨?_, ?_, ?_⟩ <;> simp [bingRetrieve, h]

/-- Witness for C5 at a concrete world with HTTP status 404. -/
theorem bing_retrieve_http_error_witness :
    400 ≤ w404.searchStatus ∧
    (bingRetrieve 3 w404 "q").1 = Except.error () ∧
    (bingRetrieve 3 w404 "q").2 = [HttpRequest.searchApi "q"] :=
  ⟨by decide,
   (bing_retrieve_http_error 3 w404 "q" (by decide)).1,
   (bing_retrieve_http_error 3 w404 "q" (by decide)).2.1⟩

/-- C2 counterexample: with an unsupported `text_format`, retrieval does
fail, but the `dumpindex` process has already been invoked before the
failure is raised — the claim's "external dump process is not invoked"
part is false. -/
theorem indri_unsupported_format_counterexample :
    (indriGetDocFromIndex "raw" sampleIndriWorld "7").1 = Except.error () ∧
    (indriGetDocFromIndex "raw" sampleIndriWorld "7").2
      = [ProcCall.dumpindex "7"] ∧
    (indriGetDocFromIndex "raw" sampleIndriWorld "7").2 ≠ [] ∧
    (indriRetrieve "raw" 1 sampleIndriWorld "q").1 = Except.error () ∧
    (indriRetrieve "raw" 1 sampleIndriWorld "q").2 ≠ [] := by
  refine ⟨rfl, rfl, by decide, rfl, by decide⟩

/-- C2 amended: with `text_format` outside the supported set, retrieval
fails with the unsupported-format error, but only after the external
dump process has been invoked (once per attempted document). -/
theorem indri_unsupported_format_fails_after_dump
    (tf : String) (h : tf ≠ "trectext") (w : IndriWorld) (doc_id : String)
    (N : Nat) (q : String) (hne : w.engineQuery q N ≠ []) :
    (indriGetDocFromIndex tf w doc_id).1 = Except.error () ∧
    (indriGetDocFromIndex tf w doc_id).2 = [ProcCall.dumpindex doc_id] ∧
    (indriRetrieve tf N w q).1 = Except.error () ∧
    (indriRetrieve tf N w q).2 ≠ [] := by
  refine ⟨by simp [indriGetDocFromIndex, h], by simp [indriGetDocFromIndex, h], ?_, ?_⟩ <;>
  · obtain ⟨p, rest, hq⟩ : ∃ p rest, w.engineQuery q N = p :: rest := by
      cases hw : w.engineQuery q N with
      | nil => exact absurd hw hne
      | cons p rest => exact ⟨p, rest, rfl⟩
    obtain ⟨d, s⟩ := p
    simp [indriRetrieve, hq, indriLoop, indriGetDocFromIndex, h]

/-- Witness for the amended C2 at a concrete world and format. -/
theorem indri_unsupported_format_fails_after_dump_witness :
    ("raw" ≠ "trectext") ∧
    (sampleIndriWorld.engineQuery "q" 1 ≠ []) ∧
    (indriRetrieve "raw" 1 sampleIndriWorld "q").1 = Except.error () :=
  ⟨by decide, by decide,
   (indri_unsupported_format_fails_after_dump "raw" (by decide)
      sampleIndriWorld "7" 1 "q" (by decide)).2.2.1⟩

/-- A concrete world for witnesses: the search API succeeds (HTTP 200)
and returns five hits. -/
def wOk : BingWorld :=
  { searchStatus := 200
    hits :=
      [{ url := "http://a.example", name := "A", snippet := "<b>a</b>" },
       { url := "http://b.example", name := "B", snippet := "b" },
       { url := "http://c.example", name := "C", snippet := "c" },
       { url := "http://d.example", name := "D", snippet := "d" },
       { url := "http://e.example", name := "E", snippet := "e" }]
    fetchPage := fun u => "<html>" ++ u ++ "</html>"
    cleanText := fun s => "clean:" ++ s
    stripTags := fun s => s }

/-- The scores of a retrieval outcome (empty on failure). -/
def scoresOf (r : Except Unit (List Document)) : List Int :=
  match r with
  | Except.ok ds => ds.map Document.score
  | Except.error _ => []

/-- C6: a successful `Indri.retrieve` maps each engine `(id, score)`
pair, in ranking order, to a document carrying the stringified internal
id and the engine's score. -/
theorem indri_retrieve_ids_scores_order (N : Nat) (w : IndriWorld) (q : String) :
    ∃ docs, (indriRetrieve "trectext" N w q).1 = Except.ok docs ∧
      docs.map Document.id = (w.engineQuery q N).map (fun p => toString p.1) ∧
      docs.map Document.score = (w.engineQuery q N).map (fun p => p.2) := by
  refine ⟨(w.engineQuery q N).map (fun p =>
    { w.parseTrec (w.dumpOutput (toString p.1)) with
        score := p.2, id := toString p.1 }), ?_, ?_, ?_⟩
  · simp [indriRetrieve, indriLoop_trectext]
  · simp [List.map_map, Function.comp]
  · simp [List.map_map, Function.comp]

/-- C4: a successful `retrieve` returns at most `results_requested`
documents for both back ends: the web back end returns exactly
`min(hit count, N)` documents in API order, and the index back end one
document per engine pair. -/
theorem retrieve_result_count
    (N : Nat) (bw : BingWorld) (q : String) (hok : bw.searchStatus < 400)
    (iw : IndriWorld) (q' : String)
    (heng : (iw.engineQuery q' N).length ≤ N) :
    (∃ docs, (bingRetrieve N bw q).1 = Except.ok docs ∧
       docs.length = min bw.hits.length N ∧ docs.length ≤ N ∧
       docs.map Document.id = (bw.hits.take N).map BingHit.url) ∧
    (∃ docs, (indriRetrieve "trectext" N iw q').1 = Except.ok docs ∧
       docs.length = (iw.engineQuery q' N).length ∧ docs.length ≤ N) := by
  constructor
  · refine ⟨(bw.hits.take N).enum.map (fun p => bingDocAt bw p.1 p.2),
      by rw [bingRetrieve_ok N bw q hok], ?_, ?_, ?_⟩
    · simp [List.length_take, Nat.min_comm]
    · simp [List.length_take]
    · rw [List.map_map]
      have h2 : (Document.id ∘ fun p : Nat × BingHit => bingDocAt bw p.1 p.2)
          = (BingHit.url ∘ Prod.snd) := rfl
      rw [h2, ← List.map_map, List.enum_map_snd]
  · refine ⟨(iw.engineQuery q' N).map (fun p =>
      { iw.parseTrec (iw.dumpOutput (toString p.1)) with
          score := p.2, id := toString p.1 }), ?_, ?_, ?_⟩
    · simp [indriRetrieve, indriLoop_trectext]
    · simp
    · simpa using heng

/-- C1 counterexample: with `results_requested = 3` and at least three
hits, the web back end's scores are `[10, 9, 8]`, not `[3, 2, 1]` as the
claim's `score = results_requested - rank` formula demands. -/
theorem bing_scores_counterexample :
    scoresOf (bingRetrieve 3 wOk "q").1 = [10, 9, 8] ∧
    scoresOf (bingRetrieve 3 wOk "q").1 ≠ [3, 2, 1] := by
  exact ⟨rfl, by decide⟩

/-- C1 amended: the web back end assigns the synthetic score
`10 - i` at zero-based rank `i` — the constant is the literal `10`, not
the configured `results_requested` — and scores are strictly decreasing
with rank. -/
theorem bing_scores_ten_minus_rank (N : Nat) (w : BingWorld) (q : String)
    (hok : w.searchStatus < 400) :
    ∃ docs, (bingRetrieve N w q).1 = Except.ok docs ∧
      (∀ i, (hi : i < docs.length) →
        (docs.get ⟨i, hi⟩).score = 10 - (i : Int)) ∧
      (∀ i j, (hi : i < docs.length) → (hj : j < docs.length) → i < j →
        (docs.get ⟨j, hj⟩).score < (docs.get ⟨i, hi⟩).score) := by
  refine ⟨(w.hits.take N).enum.map (fun p => bingDocAt w p.1 p.2),
    by rw [bingRetrieve_ok N w q hok], ?_, ?_⟩
  · intro i hi
    simp only [List.get_eq_getElem, List.getElem_map, List.getElem_enum, bingDocAt]
  · intro i j hi hj hij
    simp only [List.get_eq_getElem, List.getElem_map, List.getElem_enum, bingDocAt]
    omega

/-- Witness for the amended C1: three documents with scores 10, 9, 8. -/
theorem bing_scores_ten_minus_rank_witness :
    wOk.searchStatus < 400 ∧
    (∃ docs, (bingRetrieve 3 wOk "q").1 = Except.ok docs ∧
      (∀ i, (hi : i < docs.length) →
        (docs.get ⟨i, hi⟩).score = 10 - (i : Int)) ∧
      (∀ i j, (hi : i < docs.length) → (hj : j < docs.length) → i < j →
        (docs.get ⟨j, hj⟩).score < (docs.get ⟨i, hi⟩).score)) :=
  ⟨by decide, bing_scores_ten_minus_rank 3 wOk "q" (by decide)⟩

/-- Witness for C4: five hits, `results_requested = 3`, three documents
in API order; the sample engine returns one pair for `N = 3`. -/
theorem retrieve_result_count_witness :
    wOk.searchStatus < 400 ∧
    (sampleIndriWorld.engineQuery "q" 3).length ≤ 3 ∧
    (∃ docs, (bingRetrieve 3 wOk "q").1 = Except.ok docs ∧
       docs.length = min wOk.hits.length 3 ∧ docs.length ≤ 3 ∧
       docs.map Document.id = (wOk.hits.take 3).map BingHit.url) :=
  ⟨by decide, by decide,
   (retrieve_result_count 3 wOk "q" (by decide) sampleIndriWorld "q"
      (by decide)).1⟩

/-- C7: each web document's id is the hit's URL, its title the hit's
name, and its text the cleaned fetched page for that URL; the result is
unchanged under any replacement of the HTML snippet stripper and under
any rewriting of the hits' snippets — the snippet is never used. -/
theorem bing_doc_fields_full_page (N : Nat) (w : BingWorld) (q : String)
    (hok : w.searchStatus < 400) :
    ∃ docs, (bingRetrieve N w q).1 = Except.ok docs ∧
      docs.map Document.id = (w.hits.take N).map BingHit.url ∧
      docs.map Document.title = (w.hits.take N).map BingHit.name ∧
      docs.map Document.text =
        (w.hits.take N).map (fun h => w.cleanText (w.fetchPage h.url)) ∧
      (∀ f : String → String,
        bingRetrieve N { w with stripTags := f } q = bingRetrieve N w q) ∧
      (∀ g : BingHit → String,
        bingRetrieve N
          { w with hits := w.hits.map (fun h => { h with snippet := g h }) } q
          = bingRetrieve N w q) := by
  refine ⟨(w.hits.take N).enum.map (fun p => bingDocAt w p.1 p.2),
    by rw [bingRetrieve_ok N w q hok], ?_, ?_, ?_, ?_, ?_⟩
  · rw [List.map_map]
    have h2 : (Document.id ∘ fun p : Nat × BingHit => bingDocAt w p.1 p.2)
        = (BingHit.url ∘ Prod.snd) := rfl
    rw [h2, ← List.map_map, List.enum_map_snd]
  · rw [List.map_map]
    have h2 : (Document.title ∘ fun p : Nat × BingHit => bingDocAt w p.1 p.2)
        = (BingHit.name ∘ Prod.snd) := rfl
    rw [h2, ← List.map_map, List.enum_map_snd]
  · rw [List.map_map]
    have h2 : (Document.text ∘ fun p : Nat × BingHit => bingDocAt w p.1 p.2)
        = ((fun h => w.cleanText (w.fetchPage h.url)) ∘ Prod.snd) := rfl
    rw [h2, ← List.map_map, List.enum_map_snd]
  · intro f
    rfl
  · intro g
    rw [bingRetrieve_ok N _ q (by simpa using hok), bingRetrieve_ok N w q hok]
    show (Except.ok (((w.hits.map fun h => { h with snippet := g h }).take
        N).enum.map _), _) = _
    rw [← List.map_take, List.enum_map, List.map_map, List.map_map]
    rfl

/-- Witness for C7 at the concrete five-hit world. -/
theorem bing_doc_fields_full_page_witness :
    wOk.searchStatus < 400 ∧
    (∃ docs, (bingRetrieve 3 wOk "q").1 = Except.ok docs ∧
      docs.map Document.id = (wOk.hits.take 3).map BingHit.url ∧
      docs.map Document.title = (wOk.hits.take 3).map BingHit.name ∧
      docs.map Document.text =
        (wOk.hits.take 3).map (fun h => wOk.cleanText (wOk.fetchPage h.url)) ∧
      (∀ f : String → String,
        bingRetrieve 3 { wOk with stripTags := f } "q" = bingRetrieve 3 wOk "q") ∧
      (∀ g : BingHit → String,
        bingRetrieve 3
          { wOk with hits := wOk.hits.map (fun h => { h with snippet := g h }) } "q"
          = bingRetrieve 3 wOk "q")) :=
  ⟨by decide, bing_doc_fields_full_page 3 wOk "q" (by decide)⟩

/-- C8: a successful web retrieval returning `k` documents performs
exactly `1 + k` outbound HTTP requests — the search call followed by one
page fetch per returned document (at its id, the URL), and nothing
else. -/
theorem bing_http_request_count (N : Nat) (w : BingWorld) (q : String)
    (hok : w.searchStatus < 400) :
    ∃ docs, (bingRetrieve N w q).1 = Except.ok docs ∧
      (bingRetrieve N w q).2 =
        HttpRequest.searchApi q ::
          docs.map (fun d => HttpRequest.pageFetch d.id) ∧
      (bingRetrieve N w q).2.length = 1 + docs.length := by
  refine ⟨(w.hits.take N).enum.map (fun p => bingDocAt w p.1 p.2),
    by rw [bingRetrieve_ok N w q hok], ?_, ?_⟩
  · rw [bingRetrieve_ok N w q hok]
    rw [List.map_map]
    have h2 : ((fun d => HttpRequest.pageFetch d.id) ∘
        fun p : Nat × BingHit => bingDocAt w p.1 p.2)
        = ((fun h => HttpRequest.pageFetch h.url) ∘ Prod.snd) := rfl
    rw [h2, ← List.map_map, List.enum_map_snd]
  · rw [bingRetrieve_ok N w q hok]
    simp [Nat.add_comm]

/-- Witness for C8: three documents, four HTTP requests. -/
theorem bing_http_request_count_witness :
    wOk.searchStatus < 400 ∧
    (∃ docs, (bingRetrieve 3 wOk "q").1 = Except.ok docs ∧
      (bingRetrieve 3 wOk "q").2 =
        HttpRequest.searchApi "q" ::
          docs.map (fun d => HttpRequest.pageFetch d.id) ∧
      (bingRetrieve 3 wOk "q").2.length = 1 + docs.length) :=
  ⟨by decide, bing_http_request_count 3 wOk "q" (by decide)⟩

end Macaw
